import Mathlib

/-!
Verification of the overlay-recombination tool (`combine-overlays.py`).

The development shallowly embeds the script's core: discovery of overlay
folders (`find_overlay_folders`), the image compositor (`combine_image`),
the video compositor (`combine_video`), the orchestration loop
(`process_all_memories`) and the entry point (`main`).  Filesystem state is
passed explicitly: a root directory is an `Option (List FsEntry)` (`none`
models a path for which `os.path.exists` is false), prints and filesystem
actions become an explicit `Event` trace, and the two compositors'
externally-determined outcomes (codec work, subprocess exit) are supplied
as explicit oracle functions.
-/

namespace SnapMemories

/-- Prefix test on character lists, modelling how Python's `in` operator
scans a string: `leadsWith n h` holds when `h` starts with `n`. -/
def leadsWith : List Char → List Char → Bool
  | [], _ => true
  | _ :: _, [] => false
  | a :: as, b :: bs => a == b && leadsWith as bs

/-- Substring containment on character lists, modelling Python's
`needle in hay` on strings. -/
def hasSubstr (needle : List Char) : List Char → Bool
  | [] => needle.isEmpty
  | c :: cs => leadsWith needle (c :: cs) || hasSubstr needle cs

/-- Python's `pattern in f.lower()`: case-insensitive substring match of a
(lowercase) pattern against a filename. -/
def pySubstr (pattern f : String) : Bool :=
  hasSubstr pattern.toList (f.toList.map Char.toLower)

/-- Line 52: a file counts as an overlay when its lowercase name contains
`-overlay.png`. -/
def isOverlayFile (f : String) : Bool := pySubstr "-overlay.png" f

/-- Line 53: a file counts as a candidate base image when its lowercase
name contains `-main.jpg`. -/
def isMainImage (f : String) : Bool := pySubstr "-main.jpg" f

/-- Line 54: a file counts as a candidate base video when its lowercase
name contains `-main.mp4`. -/
def isMainVideo (f : String) : Bool := pySubstr "-main.mp4" f

/-- An immediate entry of the source root: either a plain file or a
subdirectory with its list of contained file names (in listing order). -/
inductive FsEntry where
  | file (name : String)
  | dir (name : String) (files : List String)
deriving Repr, DecidableEq

/-- Name of a directory entry, as `os.listdir` returns it. -/
def FsEntry.name : FsEntry → String
  | .file n => n
  | .dir n _ => n

/-- Model of `os.path.join` for the forward-slash paths the tool builds. -/
def joinPath (a b : String) : String := a ++ "/" ++ b

/-- The `folder_info` dictionary built at lines 57-65 of the script. -/
structure FolderInfo where
  folder_name : String
  folder_path : String
  overlays : List String
  base_image : Option String
  base_video : Option String
  is_image : Bool
  is_video : Bool
deriving Repr, DecidableEq

/-- Classification of one subdirectory (lines 49-66): collect overlay,
base-image and base-video matches; produce a `FolderInfo` only when at
least one overlay file is present. -/
def classifyDir (directory item : String) (files : List String) : Option FolderInfo :=
  let item_path := joinPath directory item
  let overlay_files := files.filter isOverlayFile
  let main_images := files.filter isMainImage
  let main_videos := files.filter isMainVideo
  if overlay_files.isEmpty then none
  else some {
    folder_name := item
    folder_path := item_path
    overlays := overlay_files.map (fun f => joinPath item_path f)
    base_image := main_images.head?.map (fun f => joinPath item_path f)
    base_video := main_videos.head?.map (fun f => joinPath item_path f)
    is_image := !main_images.isEmpty
    is_video := !main_videos.isEmpty }

/-- Model of `find_overlay_folders` (lines 28-68).  The root argument is `none`
when `os.path.exists(directory)` is false, in which case the function
returns the empty list; otherwise plain files are skipped and each
subdirectory is classified in listing order. -/
def find_overlay_folders (directory : String) (root : Option (List FsEntry)) :
    List FolderInfo :=
  match root with
  | none => []
  | some entries =>
    entries.filterMap fun e =>
      match e with
      | .file _ => none
      | .dir item files => classifyDir directory item files

/-- The derived classification of an item, exactly as the orchestrator's
dispatch at lines 184/204 resolves it: the `is_image` branch is tested
first, then `is_video`, else the item has no base. -/
inductive Kind where
  | image
  | video
  | unclassified
deriving Repr, DecidableEq

/-- Kind as a function of the two presence flags alone. -/
def kindOf (isImg isVid : Bool) : Kind :=
  if isImg then .image else if isVid then .video else .unclassified

/-- Kind of a discovered item. -/
def kind (f : FolderInfo) : Kind := kindOf f.is_image f.is_video

/-- C4: for every path that does not exist on the filesystem (modelled by
the `none` root), `find_overlay_folders` returns the empty sequence; being
a total Lean function, it raises no exception. -/
theorem discover_missing_root_empty (directory : String) :
    find_overlay_folders directory none = [] := rfl

/-- Helper: a produced `FolderInfo` always originates from a subdirectory
entry whose overlay matches are non-empty. -/
theorem mem_find_overlay_folders {directory : String} {entries : List FsEntry}
    {f : FolderInfo} (hf : f ∈ find_overlay_folders directory (some entries)) :
    ∃ item files, FsEntry.dir item files ∈ entries ∧
      classifyDir directory item files = some f := by
  simp only [find_overlay_folders, List.mem_filterMap] at hf
  obtain ⟨e, he, hce⟩ := hf
  cases e with
  | file n => simp at hce
  | dir item files => exact ⟨item, files, he, hce⟩

/-- Helper: what `classifyDir` guarantees about a produced item. -/
theorem classifyDir_some {directory item : String} {files : List String}
    {f : FolderInfo} (h : classifyDir directory item files = some f) :
    (files.filter isOverlayFile ≠ [] ∧ f.folder_name = item ∧
      f.overlays ≠ []) := by
  unfold classifyDir at h
  by_cases hov : (files.filter isOverlayFile).isEmpty
  · simp [hov] at h
  · simp only [hov, if_neg, Bool.false_eq_true, not_false_iff, if_false] at h
    refine ⟨by simpa [List.isEmpty_iff] using hov, ?_, ?_⟩
    · cases h; rfl
    · cases h
      simp only [ne_eq, List.map_eq_nil_iff]
      simpa [List.isEmpty_iff] using hov

/-- C3: every discovered item has a non-empty overlay list, and a
subdirectory whose files include no overlay match yields no item (given
that listing names are distinct, as `os.listdir` guarantees). -/
theorem discover_requires_overlay (directory : String) (entries : List FsEntry)
    (hnd : (entries.map FsEntry.name).Nodup) :
    (∀ f ∈ find_overlay_folders directory (some entries), f.overlays ≠ []) ∧
    (∀ nm files, FsEntry.dir nm files ∈ entries →
      files.filter isOverlayFile = [] →
      ∀ f ∈ find_overlay_folders directory (some entries), f.folder_name ≠ nm) := by
  constructor
  · intro f hf
    obtain ⟨item, files, _, hcl⟩ := mem_find_overlay_folders hf
    exact (classifyDir_some hcl).2.2
  · intro nm files hmem hempty f hf hname
    obtain ⟨item, files2, hmem2, hcl⟩ := mem_find_overlay_folders hf
    obtain ⟨hov, hfn, _⟩ := classifyDir_some hcl
    have hitem : item = nm := by rw [← hfn, hname]
    subst hitem
    have heq : FsEntry.dir item files2 = FsEntry.dir item files := by
      have hinj := List.inj_on_of_nodup_map hnd
      exact hinj hmem2 hmem rfl
    have : files2 = files := by cases heq; rfl
    subst this
    exact hov hempty

/-!  Image compositor model.  A decoded raster image is represented by its
geometry, its colour mode and the optional EXIF payload that Pillow exposes
through `info.get` (a byte string, modelled as `List Nat`).  Pixel contents
are abstracted away: the claims under verification speak about dimensions,
channel model and metadata.  A file that fails to decode is `none`; the
success of the final encode is an explicit oracle bit. -/

/-- A decoded PIL image: geometry, colour mode and EXIF payload. -/
structure PILImage where
  width : Nat
  height : Nat
  mode : String
  exif : Option (List Nat)
deriving Repr, DecidableEq

/-- Model of `img.size` as the `(width, height)` pair Pillow reports. -/
def PILImage.size (i : PILImage) : Nat × Nat := (i.width, i.height)

/-- Model of `img.convert(m)`: re-expresses the pixels in colour mode `m`; geometry
and the original file's metadata dictionary are untouched. -/
def PILImage.convert (i : PILImage) (m : String) : PILImage := { i with mode := m }

/-- Model of `img.resize(sz)` with the LANCZOS filter: resamples (stretches or
squashes, never crops) the full picture to the requested geometry. -/
def PILImage.resize (i : PILImage) (sz : Nat × Nat) : PILImage :=
  { i with width := sz.1, height := sz.2 }

/-- Model of `base.paste(overlay, (0, 0), overlay)`: blends the overlay onto the
base in place; the base keeps its geometry and colour mode. -/
def PILImage.paste (base overlay : PILImage) : PILImage := base

/-- A file written by `Image.save`: destination, format, geometry, colour
mode, the quality argument and the EXIF block passed to the encoder. -/
structure SavedFile where
  path : String
  format : String
  width : Nat
  height : Nat
  mode : String
  quality : Int
  exif : Option (List Nat)
deriving Repr, DecidableEq

/-- Lines 89-99: the EXIF block handed to `save`.  `base_img.info.get` may
be absent, and Python's truthiness test `if exif_data:` also treats an
empty byte string as absent. -/
def exifArg (base_img : PILImage) : Option (List Nat) :=
  match base_img.exif with
  | some l => if l.isEmpty then none else some l
  | none => none

/-- Lines 77-83 of `combine_image`, factored out: the overlay actually
composited is the overlay converted to RGBA and, when its size differs
from the flattened base's, resampled to exactly the base's size. -/
def prepOverlay (base_img ovRaw : PILImage) : PILImage :=
  let base := base_img.convert "RGB"
  let overlay := ovRaw.convert "RGBA"
  if overlay.size ≠ base.size then overlay.resize base.size else overlay

/-- Model of `combine_image` (lines 70-104).  Inputs model the two decoded files
(`none` when opening/decoding raises) and a save-success oracle; the whole
body sits in a `try` block, so every failure yields the flag `false`
rather than an exception.  On success the written file is returned
alongside the flag. -/
def combine_image (baseFile overlayFile : Option PILImage) (output_path : String)
    (quality : Int) (saveOk : Bool) : Bool × Option SavedFile :=
  match baseFile with
  | none => (false, none)
  | some base_img =>
    match overlayFile with
    | none => (false, none)
    | some ovRaw =>
      let base := base_img.convert "RGB"
      let overlay := prepOverlay base_img ovRaw
      let pasted := base.paste overlay
      if saveOk then
        (true, some { path := output_path, format := "JPEG",
                      width := pasted.width, height := pasted.height,
                      mode := pasted.mode, quality := quality,
                      exif := exifArg base_img })
      else (false, none)

/-- Model of `combine_video` (lines 106-136).  The subprocess result is `none` when
launching ffmpeg itself raises, otherwise the exit status and captured
standard error; `check=True` turns a non-zero status into a caught
`CalledProcessError`, so the function returns `true` exactly on a clean
exit and never propagates an exception. -/
def combine_video (base_path overlay_path output_path : String)
    (runResult : Option (Int × String)) : Bool :=
  match runResult with
  | none => false
  | some r => r.1 == 0

/-- C5: a successful image-compositing call writes a file with exactly the
base image's pixel dimensions and the flattened opaque `RGB` mode, and the
overlay it composites carries an alpha channel and exactly the base's
dimensions (resampled to them when they differ). -/
theorem combine_image_output_dimensions (b o : PILImage) (p : String) (q : Int)
    (saveOk : Bool) (h : (combine_image (some b) (some o) p q saveOk).1 = true) :
    (combine_image (some b) (some o) p q saveOk).2.map SavedFile.width = some b.width ∧
    (combine_image (some b) (some o) p q saveOk).2.map SavedFile.height = some b.height ∧
    (combine_image (some b) (some o) p q saveOk).2.map SavedFile.mode = some "RGB" ∧
    (prepOverlay b o).width = b.width ∧
    (prepOverlay b o).height = b.height ∧
    (prepOverlay b o).mode = "RGBA" := by
  cases saveOk with
  | false => simp [combine_image] at h
  | true =>
    have hov : (prepOverlay b o).width = b.width ∧ (prepOverlay b o).height = b.height ∧
        (prepOverlay b o).mode = "RGBA" := by
      unfold prepOverlay
      simp only [PILImage.convert, PILImage.size, PILImage.resize]
      by_cases hsz : ((o.width, o.height) : Nat × Nat) = ((b.width, b.height) : Nat × Nat)
      · have hw : o.width = b.width := congrArg Prod.fst hsz
        have hh : o.height = b.height := congrArg Prod.snd hsz
        simp [hsz, hw, hh]
      · simp [hsz]
    exact ⟨rfl, rfl, rfl, hov.1, hov.2.1, hov.2.2⟩

/-- Witness for `combine_image_output_dimensions` at a 100x100 base and a
50x50 overlay. -/
theorem combine_image_output_dimensions_witness :
    ((combine_image (some ⟨100, 100, "RGB", none⟩) (some ⟨50, 50, "RGBA", none⟩)
        "out/m_combined.jpg" 95 true).1 = true) ∧
    ((combine_image (some ⟨100, 100, "RGB", none⟩) (some ⟨50, 50, "RGBA", none⟩)
        "out/m_combined.jpg" 95 true).2.map SavedFile.width = some 100 ∧
     (combine_image (some ⟨100, 100, "RGB", none⟩) (some ⟨50, 50, "RGBA", none⟩)
        "out/m_combined.jpg" 95 true).2.map SavedFile.height = some 100 ∧
     (combine_image (some ⟨100, 100, "RGB", none⟩) (some ⟨50, 50, "RGBA", none⟩)
        "out/m_combined.jpg" 95 true).2.map SavedFile.mode = some "RGB" ∧
     (prepOverlay ⟨100, 100, "RGB", none⟩ ⟨50, 50, "RGBA", none⟩).width = 100 ∧
     (prepOverlay ⟨100, 100, "RGB", none⟩ ⟨50, 50, "RGBA", none⟩).height = 100 ∧
     (prepOverlay ⟨100, 100, "RGB", none⟩ ⟨50, 50, "RGBA", none⟩).mode = "RGBA") :=
  ⟨by decide, combine_image_output_dimensions _ _ _ _ _ (by decide)⟩

/-- C9: when the base image carries a (non-empty) embedded EXIF block, a
successful compositing call passes exactly that block to the encoder of
the output file; a base without EXIF still yields a successful call. -/
theorem combine_image_preserves_exif (b bPlain o : PILImage) (p : String) (q : Int)
    (l : List Nat) (hex : b.exif = some l) (hne : l ≠ [])
    (hplain : bPlain.exif = none) :
    (combine_image (some b) (some o) p q true).2.map SavedFile.exif = some (some l) ∧
    (combine_image (some bPlain) (some o) p q true).1 = true ∧
    (combine_image (some bPlain) (some o) p q true).2.map SavedFile.exif = some none := by
  refine ⟨?_, rfl, ?_⟩
  · simp [combine_image, exifArg, hex, hne]
  · simp [combine_image, exifArg, hplain]

/-- Witness for `combine_image_preserves_exif` with a two-byte EXIF block
and an EXIF-free base. -/
theorem combine_image_preserves_exif_witness :
    ((⟨100, 100, "RGB", some [4, 2]⟩ : PILImage).exif = some [4, 2] ∧
      ([4, 2] : List Nat) ≠ [] ∧
      (⟨100, 100, "RGB", none⟩ : PILImage).exif = none) ∧
    ((combine_image (some ⟨100, 100, "RGB", some [4, 2]⟩) (some ⟨50, 50, "RGBA", none⟩)
        "out/m_combined.jpg" 95 true).2.map SavedFile.exif = some (some [4, 2]) ∧
     (combine_image (some ⟨100, 100, "RGB", none⟩) (some ⟨50, 50, "RGBA", none⟩)
        "out/m_combined.jpg" 95 true).1 = true ∧
     (combine_image (some ⟨100, 100, "RGB", none⟩) (some ⟨50, 50, "RGBA", none⟩)
        "out/m_combined.jpg" 95 true).2.map SavedFile.exif = some none) :=
  ⟨by decide,
   combine_image_preserves_exif _ _ _ _ _ _ (by decide) (by decide) (by decide)⟩

/-!  Orchestrator model.  Console output and filesystem actions of
`process_all_memories` become an explicit `Event` trace; the outcomes of
the two compositors (which depend on codecs and the external tool) are
supplied as oracle functions over the exact arguments the script passes. -/

/-- Observable actions of one run, in order of occurrence. -/
inductive Event where
  | scan (dir : String)
  | mkdirOut (dir : String)
  | itemStart (name : String)
  | wouldCreate (filename : String)
  | imageAttempt (base overlay output : String) (quality : Int) (ok : Bool)
  | videoAttempt (base overlay output : String) (ok : Bool)
  | videoSkip (name : String)
deriving Repr, DecidableEq

/-- Counter increments and events contributed by one loop iteration. -/
structure ItemOut where
  dpi : Nat
  dpv : Nat
  dsv : Nat
  derr : Nat
  events : List Event
deriving Repr, DecidableEq

/-- Output path for an image item (lines 182-186): the folder name with
`_combined.jpg` appended, inside the output directory. -/
def imgOutPath (output_dir : String) (f : FolderInfo) : String :=
  joinPath output_dir (f.folder_name ++ "_combined" ++ ".jpg")

/-- Output path for a video item (lines 209-210). -/
def vidOutPath (output_dir : String) (f : FolderInfo) : String :=
  joinPath output_dir (f.folder_name ++ "_combined" ++ ".mp4")

/-- The image-compositor invocation of lines 192-197, abstracted to its
success flag: base image, first overlay, derived output path, quality. -/
def imgCall (output_dir : String) (quality : Int)
    (imgOk : String → String → String → Int → Bool) (f : FolderInfo) : Bool :=
  imgOk (f.base_image.getD "") (f.overlays.headD "") (imgOutPath output_dir f) quality

/-- The video-compositor invocation of lines 216-220, abstracted to its
success flag: base video, first overlay, derived output path. -/
def vidCall (output_dir : String)
    (vidOk : String → String → String → Bool) (f : FolderInfo) : Bool :=
  vidOk (f.base_video.getD "") (f.overlays.headD "") (vidOutPath output_dir f)

/-- One iteration of the processing loop (lines 176-227): dispatch on
`is_image` first, then `is_video`; in dry-run mode only announce the
output file; when ffmpeg is missing skip the video before the dry-run
test; otherwise invoke the matching compositor and update the counters
from its success flag. -/
def itemStep (output_dir : String) (dry_run : Bool) (quality : Int)
    (has_ffmpeg : Bool) (imgOk : String → String → String → Int → Bool)
    (vidOk : String → String → String → Bool) (f : FolderInfo) : ItemOut :=
  if f.is_image then
    if dry_run then
      ⟨0, 0, 0, 0, [Event.itemStart f.folder_name,
        Event.wouldCreate (f.folder_name ++ "_combined" ++ ".jpg")]⟩
    else
      let ok := imgCall output_dir quality imgOk f
      ⟨if ok then 1 else 0, 0, 0, if ok then 0 else 1,
        [Event.itemStart f.folder_name,
         Event.imageAttempt (f.base_image.getD "") (f.overlays.headD "")
           (imgOutPath output_dir f) quality ok]⟩
  else if f.is_video then
    if !has_ffmpeg then
      ⟨0, 0, 1, 0, [Event.itemStart f.folder_name, Event.videoSkip f.folder_name]⟩
    else
      if dry_run then
        ⟨0, 0, 0, 0, [Event.itemStart f.folder_name,
          Event.wouldCreate (f.folder_name ++ "_combined" ++ ".mp4")]⟩
      else
        let ok := vidCall output_dir vidOk f
        ⟨0, if ok then 1 else 0, 0, if ok then 0 else 1,
          [Event.itemStart f.folder_name,
           Event.videoAttempt (f.base_video.getD "") (f.overlays.headD "")
             (vidOutPath output_dir f) ok]⟩
  else ⟨0, 0, 0, 0, [Event.itemStart f.folder_name]⟩

/-- Mutable loop state: the four counters initialised at lines 171-174
plus the trace accumulated so far. -/
structure St where
  processed_images : Nat
  processed_videos : Nat
  skipped_videos : Nat
  errors : Nat
  trace : List Event
deriving Repr, DecidableEq

/-- Folding one item into the loop state. -/
def stepItem (output_dir : String) (dry_run : Bool) (quality : Int)
    (has_ffmpeg : Bool) (imgOk : String → String → String → Int → Bool)
    (vidOk : String → String → String → Bool) (s : St) (f : FolderInfo) : St :=
  let o := itemStep output_dir dry_run quality has_ffmpeg imgOk vidOk f
  { processed_images := s.processed_images + o.dpi,
    processed_videos := s.processed_videos + o.dpv,
    skipped_videos := s.skipped_videos + o.dsv,
    errors := s.errors + o.derr,
    trace := s.trace ++ o.events }

/-- The counters of a finished run, as the summary reads them. -/
structure Report where
  found : Nat
  image_count : Nat
  video_count : Nat
  processed_images : Nat
  processed_videos : Nat
  skipped_videos : Nat
  errors : Nat
deriving Repr, DecidableEq

/-- Model of `process_all_memories` (lines 138-254): discover, return early when
nothing was found, otherwise count candidates, create the output directory
unless in dry-run mode, and process every discovered item in order. -/
def process_all_memories (root : Option (List FsEntry)) (source_dir output_dir : String)
    (dry_run : Bool) (quality : Int) (has_ffmpeg : Bool)
    (imgOk : String → String → String → Int → Bool)
    (vidOk : String → String → String → Bool) : Report × List Event :=
  let overlay_folders := find_overlay_folders source_dir root
  match overlay_folders with
  | [] => (⟨0, 0, 0, 0, 0, 0, 0⟩, [Event.scan source_dir])
  | _ =>
    let image_count := (overlay_folders.filter (fun f => f.is_image)).length
    let video_count := (overlay_folders.filter (fun f => f.is_video)).length
    let s0 : St := { processed_images := 0, processed_videos := 0, skipped_videos := 0,
                     errors := 0,
                     trace := [Event.scan source_dir] ++
                       (if dry_run then [] else [Event.mkdirOut output_dir]) }
    let s := overlay_folders.foldl
      (stepItem output_dir dry_run quality has_ffmpeg imgOk vidOk) s0
    ({ found := overlay_folders.length, image_count := image_count,
       video_count := video_count, processed_images := s.processed_images,
       processed_videos := s.processed_videos, skipped_videos := s.skipped_videos,
       errors := s.errors }, s.trace)

/-- Line 238 of the dry-run summary: the image count the preview reports. -/
def preview_images (r : Report) : Nat := r.image_count

/-- Line 239 of the dry-run summary: the video count the preview reports
(zero when ffmpeg is unavailable). -/
def preview_videos (r : Report) (has_ffmpeg : Bool) : Nat :=
  if has_ffmpeg then r.video_count else 0

/-- Lines 240-241 of the dry-run summary: the skipped-video count the
preview reports. -/
def preview_skipped (r : Report) : Nat := r.skipped_videos

/-- Default source folder (line 14). -/
def SOURCE_FOLDER : String := "snapchat_memories"

/-- Default output folder (line 15). -/
def OUTPUT_FOLDER : String := "snapchat_memories_combined"

/-- Default JPEG quality (line 16). -/
def DEFAULT_JPEG_QUALITY : Int := 95

/-- Model of `main` (lines 256-330): after argument parsing, the quality range is
validated before anything else; an out-of-range value exits with status 1
before the prompt, the ffmpeg probe and the processing call.  Declining
the prompt also ends the run without processing.  Otherwise the run's
trace is that of `process_all_memories`. -/
def main_run (quality : Int) (execute skip_prompt : Bool) (promptAnswer : String)
    (root : Option (List FsEntry)) (has_ffmpeg : Bool)
    (imgOk : String → String → String → Int → Bool)
    (vidOk : String → String → String → Bool) : Int × List Event :=
  let dry_run := !execute
  if 1 ≤ quality ∧ quality ≤ 100 then
    if !skip_prompt && !(promptAnswer.toLower == "y" || promptAnswer.toLower == "yes") then
      (0, [])
    else
      (0, (process_all_memories root SOURCE_FOLDER OUTPUT_FOLDER dry_run quality
            has_ffmpeg imgOk vidOk).2)
  else (1, [])

/-- Recognises an image-compositor invocation in a trace. -/
def isImageAttempt : Event → Bool
  | .imageAttempt _ _ _ _ _ => true
  | _ => false

/-- Recognises a video-compositor invocation in a trace. -/
def isVideoAttempt : Event → Bool
  | .videoAttempt _ _ _ _ => true
  | _ => false

/-- Recognises an action that touches the filesystem: creating the output
directory or invoking a compositor (which writes its output file). -/
def isWriteAction : Event → Bool
  | .mkdirOut _ => true
  | .imageAttempt _ _ _ _ _ => true
  | .videoAttempt _ _ _ _ => true
  | _ => false

/-- Recognises a compositor invocation that reported failure. -/
def isFailedAttempt : Event → Bool
  | .imageAttempt _ _ _ _ ok => !ok
  | .videoAttempt _ _ _ ok => !ok
  | _ => false

/-- Recognises a failed video-compositor invocation. -/
def isFailedVideoAttempt : Event → Bool
  | .videoAttempt _ _ _ ok => !ok
  | _ => false

/-- Extracts the name announced at the head of an item's iteration. -/
def itemStartName : Event → Option String
  | .itemStart n => some n
  | _ => none

/-- Extracts the full argument vector of a video-compositor invocation
together with its outcome. -/
def videoCallArgs : Event → Option (String × String × String × Bool)
  | .videoAttempt b o p ok => some (b, o, p, ok)
  | _ => none

/-!  Generic accumulation helpers and the characterization of the
processing loop as per-item sums. -/

/-- Concatenation of per-element event lists. -/
def catMap (g : α → List β) : List α → List β
  | [] => []
  | a :: t => g a ++ catMap g t

/-- Sum of a per-element numeric measure. -/
def natSum (g : α → Nat) : List α → Nat
  | [] => 0
  | a :: t => g a + natSum g t

theorem countP_catMap (p : β → Bool) (g : α → List β) :
    ∀ l : List α, (catMap g l).countP p = natSum (fun a => (g a).countP p) l := by
  intro l
  induction l with
  | nil => simp [catMap, natSum]
  | cons a t ih => simp [catMap, natSum, List.countP_append, ih]

theorem filterMap_catMap (h : β → Option γ) (g : α → List β) :
    ∀ l : List α, (catMap g l).filterMap h = catMap (fun a => (g a).filterMap h) l := by
  intro l
  induction l with
  | nil => simp [catMap]
  | cons a t ih => simp [catMap, List.filterMap_append, ih]

theorem natSum_ite_countP (p : α → Bool) :
    ∀ l : List α, natSum (fun a => if p a then 1 else 0) l = l.countP p := by
  intro l
  induction l with
  | nil => simp [natSum]
  | cons a t ih => simp [natSum, List.countP_cons, ih, Nat.add_comm]

theorem natSum_zero : ∀ l : List α, natSum (fun _ => (0 : Nat)) l = 0 := by
  intro l
  induction l with
  | nil => rfl
  | cons a t ih => simp [natSum, ih]

theorem natSum_congr {g g2 : α → Nat} :
    ∀ {l : List α}, (∀ a ∈ l, g a = g2 a) → natSum g l = natSum g2 l := by
  intro l
  induction l with
  | nil => intro _; rfl
  | cons a t ih =>
    intro h
    simp only [natSum, h a (List.mem_cons_self a t), ih fun x hx => h x (List.mem_cons_of_mem a hx)]

/-- The processing loop, folded over a list of items, decomposes into the
initial state plus per-item contributions. -/
theorem foldl_stepItem (od : String) (dr : Bool) (q : Int) (ff : Bool)
    (imgOk : String → String → String → Int → Bool)
    (vidOk : String → String → String → Bool) :
    ∀ (l : List FolderInfo) (s : St),
    l.foldl (stepItem od dr q ff imgOk vidOk) s =
      { processed_images := s.processed_images +
          natSum (fun f => (itemStep od dr q ff imgOk vidOk f).dpi) l,
        processed_videos := s.processed_videos +
          natSum (fun f => (itemStep od dr q ff imgOk vidOk f).dpv) l,
        skipped_videos := s.skipped_videos +
          natSum (fun f => (itemStep od dr q ff imgOk vidOk f).dsv) l,
        errors := s.errors +
          natSum (fun f => (itemStep od dr q ff imgOk vidOk f).derr) l,
        trace := s.trace ++ catMap (fun f => (itemStep od dr q ff imgOk vidOk f).events) l } := by
  intro l
  induction l with
  | nil => intro s; simp [natSum, catMap]
  | cons f t ih =>
    intro s
    rw [List.foldl_cons, ih]
    simp [stepItem, natSum, catMap, Nat.add_assoc, List.append_assoc]

/-!  Closed forms for the per-item measures of one loop iteration. -/

section ItemLemmas

variable (od : String) (dr : Bool) (q : Int) (ff : Bool)
variable (imgOk : String → String → String → Int → Bool)
variable (vidOk : String → String → String → Bool)
variable (f : FolderInfo)

theorem itemStep_names :
    (itemStep od dr q ff imgOk vidOk f).events.filterMap itemStartName =
      [f.folder_name] := by
  unfold itemStep
  cases hI : f.is_image <;> cases hV : f.is_video <;> cases dr <;> cases ff <;>
    cases himg : imgCall od q imgOk f <;> cases hvid : vidCall od vidOk f <;>
    simp [itemStartName]

theorem itemStep_err :
    (itemStep od dr q ff imgOk vidOk f).derr =
      (itemStep od dr q ff imgOk vidOk f).events.countP isFailedAttempt := by
  unfold itemStep
  cases hI : f.is_image <;> cases hV : f.is_video <;> cases dr <;> cases ff <;>
    cases himg : imgCall od q imgOk f <;> cases hvid : vidCall od vidOk f <;>
    simp [isFailedAttempt, List.countP_cons, himg, hvid]

theorem itemStep_imgAtt :
    (itemStep od dr q ff imgOk vidOk f).events.countP isImageAttempt =
      if f.is_image && !dr then 1 else 0 := by
  unfold itemStep
  cases hI : f.is_image <;> cases hV : f.is_video <;> cases dr <;> cases ff <;>
    cases himg : imgCall od q imgOk f <;> cases hvid : vidCall od vidOk f <;>
    simp [isImageAttempt, List.countP_cons]

theorem itemStep_vidAtt :
    (itemStep od dr q ff imgOk vidOk f).events.countP isVideoAttempt =
      if !f.is_image && (f.is_video && (ff && !dr)) then 1 else 0 := by
  unfold itemStep
  cases hI : f.is_image <;> cases hV : f.is_video <;> cases dr <;> cases ff <;>
    cases himg : imgCall od q imgOk f <;> cases hvid : vidCall od vidOk f <;>
    simp [isVideoAttempt, List.countP_cons]

theorem itemStep_dsv :
    (itemStep od dr q ff imgOk vidOk f).dsv =
      if !f.is_image && (f.is_video && !ff) then 1 else 0 := by
  unfold itemStep
  cases hI : f.is_image <;> cases hV : f.is_video <;> cases dr <;> cases ff <;>
    cases himg : imgCall od q imgOk f <;> cases hvid : vidCall od vidOk f <;>
    simp

theorem itemStep_dpv :
    (itemStep od dr q ff imgOk vidOk f).dpv =
      if !f.is_image && (f.is_video && (ff && (!dr && vidCall od vidOk f))) then 1 else 0 := by
  unfold itemStep
  cases hI : f.is_image <;> cases hV : f.is_video <;> cases dr <;> cases ff <;>
    cases himg : imgCall od q imgOk f <;> cases hvid : vidCall od vidOk f <;>
    simp [himg, hvid]

theorem itemStep_write_dry :
    (itemStep od true q ff imgOk vidOk f).events.countP isWriteAction = 0 := by
  unfold itemStep
  cases hI : f.is_image <;> cases hV : f.is_video <;> cases ff <;>
    simp [isWriteAction, List.countP_cons]

theorem itemStep_vidArgs :
    (itemStep od dr q ff imgOk vidOk f).events.filterMap videoCallArgs =
      if !f.is_image && (f.is_video && (ff && !dr)) then
        [(f.base_video.getD "", f.overlays.headD "", vidOutPath od f, vidCall od vidOk f)]
      else [] := by
  unfold itemStep
  cases hI : f.is_image <;> cases hV : f.is_video <;> cases dr <;> cases ff <;>
    cases himg : imgCall od q imgOk f <;> cases hvid : vidCall od vidOk f <;>
    simp [videoCallArgs, himg, hvid]

theorem itemStep_failedVid :
    (itemStep od dr q ff imgOk vidOk f).events.countP isFailedVideoAttempt =
      if !f.is_image && (f.is_video && (ff && (!dr && !vidCall od vidOk f))) then 1 else 0 := by
  unfold itemStep
  cases hI : f.is_image <;> cases hV : f.is_video <;> cases dr <;> cases ff <;>
    cases himg : imgCall od q imgOk f <;> cases hvid : vidCall od vidOk f <;>
    simp [isFailedVideoAttempt, List.countP_cons, himg, hvid]

end ItemLemmas

/-- A run over a non-empty discovery result is the scan, the optional
directory creation, and the per-item contributions in discovery order. -/
theorem process_all_memories_spec (root : Option (List FsEntry)) (sd od : String)
    (dr : Bool) (q : Int) (ff : Bool)
    (imgOk : String → String → String → Int → Bool)
    (vidOk : String → String → String → Bool)
    (hne : find_overlay_folders sd root ≠ []) :
    process_all_memories root sd od dr q ff imgOk vidOk =
      ({ found := (find_overlay_folders sd root).length,
         image_count := ((find_overlay_folders sd root).filter (fun f => f.is_image)).length,
         video_count := ((find_overlay_folders sd root).filter (fun f => f.is_video)).length,
         processed_images := natSum (fun f => (itemStep od dr q ff imgOk vidOk f).dpi)
           (find_overlay_folders sd root),
         processed_videos := natSum (fun f => (itemStep od dr q ff imgOk vidOk f).dpv)
           (find_overlay_folders sd root),
         skipped_videos := natSum (fun f => (itemStep od dr q ff imgOk vidOk f).dsv)
           (find_overlay_folders sd root),
         errors := natSum (fun f => (itemStep od dr q ff imgOk vidOk f).derr)
           (find_overlay_folders sd root) },
       ([Event.scan sd] ++ (if dr then [] else [Event.mkdirOut od])) ++
         catMap (fun f => (itemStep od dr q ff imgOk vidOk f).events)
           (find_overlay_folders sd root)) := by
  simp only [process_all_memories]
  cases hL : find_overlay_folders sd root with
  | nil => exact absurd hL hne
  | cons f t =>
    rw [foldl_stepItem]
    simp [Nat.zero_add]

/-- C8: when ffmpeg is unavailable, the final skipped-video counter equals
the number of Video-kind items (base video present, no base image) — each
such item contributes exactly one increment — and the trace contains no
video-compositor invocation, hence no video output file is written, in
dry-run and execute mode alike. -/
theorem missing_tool_skips_all_videos (root : Option (List FsEntry)) (sd od : String)
    (dr : Bool) (q : Int)
    (imgOk : String → String → String → Int → Bool)
    (vidOk : String → String → String → Bool) :
    (process_all_memories root sd od dr q false imgOk vidOk).1.skipped_videos =
      (find_overlay_folders sd root).countP (fun f => !f.is_image && f.is_video) ∧
    (process_all_memories root sd od dr q false imgOk vidOk).2.countP isVideoAttempt = 0 := by
  by_cases hL : find_overlay_folders sd root = []
  · simp [process_all_memories, hL, isVideoAttempt, List.countP_cons]
  · rw [process_all_memories_spec root sd od dr q false imgOk vidOk hL]
    constructor
    · simp only [itemStep_dsv, Bool.not_false, Bool.and_true]
      exact natSum_ite_countP _ _
    · rw [List.countP_append, countP_catMap]
      simp only [itemStep_vidAtt, Bool.false_and, Bool.and_false,
        if_neg, Bool.false_eq_true, not_false_iff, if_false]
      rw [natSum_zero]
      cases dr <;> simp [isVideoAttempt, List.countP_cons]

/-- On a list where no item has both base kinds, counting Video-kind items
(no base image, base video present) is the same as counting items with a
base video. -/
theorem countP_video_noboth :
    ∀ l : List FolderInfo, l.all (fun f => !(f.is_image && f.is_video)) = true →
    l.countP (fun f => !f.is_image && f.is_video) = l.countP (fun f => f.is_video) := by
  intro l
  induction l with
  | nil => intro _; rfl
  | cons f t ih =>
    intro h
    rw [List.all_cons, Bool.and_eq_true] at h
    rw [List.countP_cons, List.countP_cons, ih h.2]
    have hf := h.1
    cases hI : f.is_image <;> cases hV : f.is_video <;> simp [hI, hV] at hf ⊢

/-- C1 (amended): a Preview run always reports the image and skipped-video
counts an Execute run over the same tree would attempt, and its trace
always contains no filesystem write and no compositor invocation; the
reported video count coincides with Execute's attempted video compositions
provided no discovered item carries both a base image and a base video
(an item with both bases is counted in the preview's video total while
Execute dispatches it as an image). -/
theorem preview_matches_execute_attempts (root : Option (List FsEntry))
    (sd od : String) (q : Int) (ff : Bool)
    (imgOk : String → String → String → Int → Bool)
    (vidOk : String → String → String → Bool) :
    preview_images (process_all_memories root sd od true q ff imgOk vidOk).1 =
      (process_all_memories root sd od false q ff imgOk vidOk).2.countP isImageAttempt ∧
    ((find_overlay_folders sd root).all (fun f => !(f.is_image && f.is_video)) = true →
      preview_videos (process_all_memories root sd od true q ff imgOk vidOk).1 ff =
        (process_all_memories root sd od false q ff imgOk vidOk).2.countP isVideoAttempt) ∧
    preview_skipped (process_all_memories root sd od true q ff imgOk vidOk).1 =
      (process_all_memories root sd od false q ff imgOk vidOk).1.skipped_videos ∧
    (process_all_memories root sd od true q ff imgOk vidOk).2.countP isWriteAction = 0 := by
  by_cases hL : find_overlay_folders sd root = []
  · simp [process_all_memories, hL, preview_images, preview_videos, preview_skipped,
      isImageAttempt, isVideoAttempt, isWriteAction, List.countP_cons]
  · rw [process_all_memories_spec root sd od true q ff imgOk vidOk hL,
      process_all_memories_spec root sd od false q ff imgOk vidOk hL]
    refine ⟨?_, ?_, ?_, ?_⟩
    · rw [List.countP_append, countP_catMap]
      simp only [itemStep_imgAtt, Bool.not_false, Bool.and_true]
      rw [natSum_ite_countP]
      simp [preview_images, isImageAttempt, List.countP_cons, List.countP_eq_length_filter]
    · intro hnb
      rw [List.countP_append, countP_catMap]
      simp only [itemStep_vidAtt, Bool.not_false, Bool.and_true]
      cases ff with
      | false =>
        simp only [Bool.and_false, if_neg, Bool.false_eq_true, not_false_iff, if_false]
        rw [natSum_zero]
        simp [preview_videos, isVideoAttempt, List.countP_cons]
      | true =>
        simp only [Bool.and_true]
        rw [natSum_ite_countP, countP_video_noboth _ hnb]
        simp [preview_videos, isVideoAttempt, List.countP_cons, List.countP_eq_length_filter]
    · simp only [preview_skipped, itemStep_dsv]
    · rw [List.countP_append, countP_catMap]
      simp only [itemStep_write_dry]
      rw [natSum_zero]
      simp [isWriteAction, List.countP_cons]

/-- A source tree whose single memory folder carries an overlay, a base
image and a base video at once. -/
def bothRoot : List FsEntry :=
  [FsEntry.dir "m" ["a-overlay.png", "a-main.jpg", "a-main.mp4"]]

/-- C1 (counterexample): on a folder holding both base kinds with ffmpeg
available, the Preview summary reports one video to create while an
Execute run over the same discovered items attempts no video-compositor
invocation at all (the item is dispatched as an image), so the claimed
count equality fails. -/
theorem preview_video_count_mismatch :
    preview_videos (process_all_memories (some bothRoot) "snapchat_memories"
      "snapchat_memories_combined" true 95 true
      (fun _ _ _ _ => true) (fun _ _ _ => true)).1 true = 1 ∧
    (process_all_memories (some bothRoot) "snapchat_memories"
      "snapchat_memories_combined" false 95 true
      (fun _ _ _ _ => true) (fun _ _ _ => true)).2.countP isVideoAttempt = 0 ∧
    ¬(preview_videos (process_all_memories (some bothRoot) "snapchat_memories"
        "snapchat_memories_combined" true 95 true
        (fun _ _ _ _ => true) (fun _ _ _ => true)).1 true =
      (process_all_memories (some bothRoot) "snapchat_memories"
        "snapchat_memories_combined" false 95 true
        (fun _ _ _ _ => true) (fun _ _ _ => true)).2.countP isVideoAttempt) := by
  decide

/-- A source tree with one image memory, one video memory, one overlay
without a base, and a stray plain file. -/
def mixedRoot : List FsEntry :=
  [FsEntry.dir "pic" ["p-main.jpg", "p-overlay.png"],
   FsEntry.dir "vid" ["v-main.mp4", "v-overlay.png"],
   FsEntry.dir "plain" ["w-overlay.png"],
   FsEntry.file "stray.txt"]

/-- Witness for `preview_matches_execute_attempts` on `mixedRoot`. -/
theorem preview_matches_execute_attempts_witness :
    ((find_overlay_folders "snapchat_memories" (some mixedRoot)).all
      (fun f => !(f.is_image && f.is_video)) = true) ∧
    (preview_images (process_all_memories (some mixedRoot) "snapchat_memories"
        "out" true 95 true (fun _ _ _ _ => true) (fun _ _ _ => false)).1 =
      (process_all_memories (some mixedRoot) "snapchat_memories"
        "out" false 95 true (fun _ _ _ _ => true) (fun _ _ _ => false)).2.countP isImageAttempt ∧
     preview_videos (process_all_memories (some mixedRoot) "snapchat_memories"
        "out" true 95 true (fun _ _ _ _ => true) (fun _ _ _ => false)).1 true =
      (process_all_memories (some mixedRoot) "snapchat_memories"
        "out" false 95 true (fun _ _ _ _ => true) (fun _ _ _ => false)).2.countP isVideoAttempt ∧
     preview_skipped (process_all_memories (some mixedRoot) "snapchat_memories"
        "out" true 95 true (fun _ _ _ _ => true) (fun _ _ _ => false)).1 =
      (process_all_memories (some mixedRoot) "snapchat_memories"
        "out" false 95 true (fun _ _ _ _ => true) (fun _ _ _ => false)).1.skipped_videos ∧
     (process_all_memories (some mixedRoot) "snapchat_memories"
        "out" true 95 true (fun _ _ _ _ => true) (fun _ _ _ => false)).2.countP isWriteAction = 0) :=
  ⟨by decide,
   (preview_matches_execute_attempts (some mixedRoot) "snapchat_memories" "out" 95 true
     (fun _ _ _ _ => true) (fun _ _ _ => false)).1,
   (preview_matches_execute_attempts (some mixedRoot) "snapchat_memories" "out" 95 true
     (fun _ _ _ _ => true) (fun _ _ _ => false)).2.1 (by decide),
   (preview_matches_execute_attempts (some mixedRoot) "snapchat_memories" "out" 95 true
     (fun _ _ _ _ => true) (fun _ _ _ => false)).2.2.1,
   (preview_matches_execute_attempts (some mixedRoot) "snapchat_memories" "out" 95 true
     (fun _ _ _ _ => true) (fun _ _ _ => false)).2.2.2⟩

/-- C2: for a discovered item holding both a base image and a base video,
the derived kind (the orchestrator's dispatch order) is Image and never
Video, the kind is a pure function of the two presence flags (any item
with the same flags gets the same kind), and in Execute mode the item
produces exactly one image-compositor invocation and no video-compositor
invocation. -/
theorem both_bases_classified_image (sd : String) (root : Option (List FsEntry))
    (f : FolderInfo) (hf : f ∈ find_overlay_folders sd root)
    (hi : f.is_image = true) (hv : f.is_video = true)
    (g : FolderInfo) (hgi : g.is_image = f.is_image) (hgv : g.is_video = f.is_video)
    (od : String) (q : Int) (ff : Bool)
    (imgOk : String → String → String → Int → Bool)
    (vidOk : String → String → String → Bool) :
    kind f = Kind.image ∧ kind f ≠ Kind.video ∧ kind g = kind f ∧
    (itemStep od false q ff imgOk vidOk f).events.countP isImageAttempt = 1 ∧
    (itemStep od false q ff imgOk vidOk f).events.countP isVideoAttempt = 0 := by
  refine ⟨?_, ?_, ?_, ?_, ?_⟩
  · simp [kind, kindOf, hi]
  · simp [kind, kindOf, hi]
  · simp [kind, kindOf, hgi, hgv]
  · rw [itemStep_imgAtt]; simp [hi]
  · rw [itemStep_vidAtt]; simp [hi]

/-- The single item discovered in `bothRoot`. -/
def demoBothItem : FolderInfo :=
  { folder_name := "m", folder_path := "snapchat_memories/m",
    overlays := ["snapchat_memories/m/a-overlay.png"],
    base_image := some "snapchat_memories/m/a-main.jpg",
    base_video := some "snapchat_memories/m/a-main.mp4",
    is_image := true, is_video := true }

/-- Another item with the same presence flags, for the purity clause. -/
def demoOtherItem : FolderInfo :=
  { folder_name := "other", folder_path := "src/other",
    overlays := ["src/other/z-overlay.png"],
    base_image := some "src/other/z-main.jpg",
    base_video := some "src/other/z-main.mp4",
    is_image := true, is_video := true }

/-- Witness for `both_bases_classified_image` on `bothRoot`. -/
theorem both_bases_classified_image_witness :
    (demoBothItem ∈ find_overlay_folders "snapchat_memories" (some bothRoot) ∧
     demoBothItem.is_image = true ∧ demoBothItem.is_video = true ∧
     demoOtherItem.is_image = demoBothItem.is_image ∧
     demoOtherItem.is_video = demoBothItem.is_video) ∧
    (kind demoBothItem = Kind.image ∧ kind demoBothItem ≠ Kind.video ∧
     kind demoOtherItem = kind demoBothItem ∧
     (itemStep "out" false 95 true (fun _ _ _ _ => true) (fun _ _ _ => true)
        demoBothItem).events.countP isImageAttempt = 1 ∧
     (itemStep "out" false 95 true (fun _ _ _ _ => true) (fun _ _ _ => true)
        demoBothItem).events.countP isVideoAttempt = 0) :=
  ⟨by decide,
   both_bases_classified_image "snapchat_memories" (some bothRoot) demoBothItem
     (by decide) (by decide) (by decide) demoOtherItem (by decide) (by decide)
     "out" 95 true (fun _ _ _ _ => true) (fun _ _ _ => true)⟩

/-- Concatenating singletons is mapping. -/
theorem catMap_singleton (g : α → β) : ∀ l : List α, catMap (fun a => [g a]) l = l.map g := by
  intro l
  induction l with
  | nil => rfl
  | cons a t ih => simp [catMap, ih]

/-- C6: both compositors reduce every failure to the boolean flag `false`
(no exception reaches the orchestrator), and the orchestrator never aborts
the pass: whatever the per-item outcomes, every discovered item is visited
in order and the final error counter equals the number of failed
compositor invocations in the trace. -/
theorem compositors_flag_and_run_continues :
    (∀ ovf p q so, (combine_image none ovf p q so).1 = false) ∧
    (∀ b p q so, (combine_image (some b) none p q so).1 = false) ∧
    (∀ b o p q, (combine_image (some b) (some o) p q false).1 = false) ∧
    (∀ b o p, combine_video b o p none = false) ∧
    (∀ b o p c s, combine_video b o p (some (c, s)) = (c == 0)) ∧
    (∀ root sd od dr q ff
       (imgOk : String → String → String → Int → Bool)
       (vidOk : String → String → String → Bool),
      ((process_all_memories root sd od dr q ff imgOk vidOk).2.filterMap itemStartName) =
        (find_overlay_folders sd root).map FolderInfo.folder_name ∧
      (process_all_memories root sd od dr q ff imgOk vidOk).1.errors =
        (process_all_memories root sd od dr q ff imgOk vidOk).2.countP isFailedAttempt) := by
  refine ⟨fun _ _ _ _ => rfl, fun _ _ _ _ => rfl, fun _ _ _ _ => rfl,
    fun _ _ _ => rfl, fun _ _ _ _ _ => rfl, ?_⟩
  intro root sd od dr q ff imgOk vidOk
  by_cases hL : find_overlay_folders sd root = []
  · constructor
    · simp [process_all_memories, hL, itemStartName]
    · simp [process_all_memories, hL, isFailedAttempt, List.countP_cons]
  · rw [process_all_memories_spec root sd od dr q ff imgOk vidOk hL]
    constructor
    · rw [List.filterMap_append, filterMap_catMap]
      simp only [itemStep_names]
      rw [catMap_singleton]
      cases dr <;> simp [itemStartName]
    · rw [List.countP_append, countP_catMap]
      simp only [← itemStep_err]
      cases dr <;> simp [isFailedAttempt, List.countP_cons]

/-- C10: the quality parameter does not influence video processing.  For
any two in-range quality values and otherwise identical inputs, the video
compositor is invoked with identical argument vectors (and outcomes), and
the processed-video, skipped-video and failed-video counts coincide. -/
theorem quality_noninterference_videos (root : Option (List FsEntry))
    (sd od : String) (dr ff : Bool) (q1 q2 : Int)
    (imgOk : String → String → String → Int → Bool)
    (vidOk : String → String → String → Bool)
    (h1 : 1 ≤ q1) (h2 : q1 ≤ 100) (h3 : 1 ≤ q2) (h4 : q2 ≤ 100) :
    (process_all_memories root sd od dr q1 ff imgOk vidOk).2.filterMap videoCallArgs =
      (process_all_memories root sd od dr q2 ff imgOk vidOk).2.filterMap videoCallArgs ∧
    (process_all_memories root sd od dr q1 ff imgOk vidOk).1.processed_videos =
      (process_all_memories root sd od dr q2 ff imgOk vidOk).1.processed_videos ∧
    (process_all_memories root sd od dr q1 ff imgOk vidOk).1.skipped_videos =
      (process_all_memories root sd od dr q2 ff imgOk vidOk).1.skipped_videos ∧
    (process_all_memories root sd od dr q1 ff imgOk vidOk).2.countP isFailedVideoAttempt =
      (process_all_memories root sd od dr q2 ff imgOk vidOk).2.countP isFailedVideoAttempt := by
  by_cases hL : find_overlay_folders sd root = []
  · simp [process_all_memories, hL]
  · rw [process_all_memories_spec root sd od dr q1 ff imgOk vidOk hL,
      process_all_memories_spec root sd od dr q2 ff imgOk vidOk hL]
    dsimp only
    refine ⟨?_, ?_, ?_, ?_⟩
    · simp only [List.filterMap_append, filterMap_catMap, itemStep_vidArgs]
    · simp only [itemStep_dpv]
    · simp only [itemStep_dsv]
    · simp only [List.countP_append, countP_catMap, itemStep_failedVid]

/-- Witness for `quality_noninterference_videos` at qualities 90 and 95 on
`mixedRoot` with a failing video compositor. -/
theorem quality_noninterference_videos_witness :
    ((1 : Int) ≤ 90 ∧ (90 : Int) ≤ 100 ∧ (1 : Int) ≤ 95 ∧ (95 : Int) ≤ 100) ∧
    ((process_all_memories (some mixedRoot) "snapchat_memories" "out" false 90 true
        (fun _ _ _ _ => true) (fun _ _ _ => false)).2.filterMap videoCallArgs =
      (process_all_memories (some mixedRoot) "snapchat_memories" "out" false 95 true
        (fun _ _ _ _ => true) (fun _ _ _ => false)).2.filterMap videoCallArgs ∧
     (process_all_memories (some mixedRoot) "snapchat_memories" "out" false 90 true
        (fun _ _ _ _ => true) (fun _ _ _ => false)).1.processed_videos =
      (process_all_memories (some mixedRoot) "snapchat_memories" "out" false 95 true
        (fun _ _ _ _ => true) (fun _ _ _ => false)).1.processed_videos ∧
     (process_all_memories (some mixedRoot) "snapchat_memories" "out" false 90 true
        (fun _ _ _ _ => true) (fun _ _ _ => false)).1.skipped_videos =
      (process_all_memories (some mixedRoot) "snapchat_memories" "out" false 95 true
        (fun _ _ _ _ => true) (fun _ _ _ => false)).1.skipped_videos ∧
     (process_all_memories (some mixedRoot) "snapchat_memories" "out" false 90 true
        (fun _ _ _ _ => true) (fun _ _ _ => false)).2.countP isFailedVideoAttempt =
      (process_all_memories (some mixedRoot) "snapchat_memories" "out" false 95 true
        (fun _ _ _ _ => true) (fun _ _ _ => false)).2.countP isFailedVideoAttempt) :=
  ⟨by decide,
   quality_noninterference_videos (some mixedRoot) "snapchat_memories" "out" false true
     90 95 (fun _ _ _ _ => true) (fun _ _ _ => false)
     (by decide) (by decide) (by decide) (by decide)⟩

/-- Recognises the discovery scan in a trace. -/
def isScanEvent : Event → Bool
  | .scan _ => true
  | _ => false

/-- C7: a quality value outside `[1, 100]` makes the program exit with
status 1 and an empty action trace: no directory scan, no filesystem
write and no compositor invocation happens on the rejected path. -/
theorem invalid_quality_rejected_early (q : Int) (execute skip_prompt : Bool)
    (ans : String) (root : Option (List FsEntry)) (ff : Bool)
    (imgOk : String → String → String → Int → Bool)
    (vidOk : String → String → String → Bool)
    (h : q < 1 ∨ 100 < q) :
    main_run q execute skip_prompt ans root ff imgOk vidOk = (1, []) ∧
    (main_run q execute skip_prompt ans root ff imgOk vidOk).2.countP isScanEvent = 0 ∧
    (main_run q execute skip_prompt ans root ff imgOk vidOk).2.countP isWriteAction = 0 := by
  have hq : ¬(1 ≤ q ∧ q ≤ 100) := by omega
  refine ⟨?_, ?_, ?_⟩ <;> simp [main_run, hq]

/-- Witness for `invalid_quality_rejected_early` at quality 150. -/
theorem invalid_quality_rejected_early_witness :
    ((150 : Int) < 1 ∨ (100 : Int) < 150) ∧
    (main_run 150 true true "y" (some mixedRoot) true
        (fun _ _ _ _ => true) (fun _ _ _ => true) = (1, []) ∧
     (main_run 150 true true "y" (some mixedRoot) true
        (fun _ _ _ _ => true) (fun _ _ _ => true)).2.countP isScanEvent = 0 ∧
     (main_run 150 true true "y" (some mixedRoot) true
        (fun _ _ _ _ => true) (fun _ _ _ => true)).2.countP isWriteAction = 0) :=
  ⟨by decide,
   invalid_quality_rejected_early 150 true true "y" (some mixedRoot) true
     (fun _ _ _ _ => true) (fun _ _ _ => true) (by decide)⟩

/-- A source tree with one overlay folder and one folder holding only a
base image and no overlay. -/
def noOverlayRoot : List FsEntry :=
  [FsEntry.dir "m1" ["a-overlay.png", "a-main.jpg"],
   FsEntry.dir "m2" ["b-main.jpg"]]

/-- The single item discovered in `noOverlayRoot`. -/
def demoC3Item : FolderInfo :=
  { folder_name := "m1", folder_path := "r/m1",
    overlays := ["r/m1/a-overlay.png"],
    base_image := some "r/m1/a-main.jpg", base_video := none,
    is_image := true, is_video := false }

/-- Witness for `discover_requires_overlay` on `noOverlayRoot`. -/
theorem discover_requires_overlay_witness :
    ((noOverlayRoot.map FsEntry.name).Nodup ∧
     FsEntry.dir "m2" ["b-main.jpg"] ∈ noOverlayRoot ∧
     ["b-main.jpg"].filter isOverlayFile = [] ∧
     demoC3Item ∈ find_overlay_folders "r" (some noOverlayRoot)) ∧
    (demoC3Item.overlays ≠ [] ∧ demoC3Item.folder_name ≠ "m2") :=
  ⟨by decide,
   (discover_requires_overlay "r" noOverlayRoot (by decide)).1 demoC3Item (by decide),
   (discover_requires_overlay "r" noOverlayRoot (by decide)).2 "m2" ["b-main.jpg"]
     (by decide) (by decide) demoC3Item (by decide)⟩

end SnapMemories
